import Mathlib

/-!
# Neurosky-Mindwave serial poller: embedding of `main.cpp`

The program opens a serial port, sets the line parameters, and polls the
device forever, printing a notice for every chunk that starts with the
synchronisation marker `0xAA 0xAA`.

The embedding is shallow:

* `std::vector<uint8_t>` is `List Byte` with `Byte = Fin 256`;
* the Win32 calls (`CreateFileA`, `GetCommState`, `SetCommState`, `ReadFile`)
  are answers supplied by a `Device`, and every call and every console line
  is recorded in a trace of `Event`s;
* `while (true)` is a step function on control states, iterated over a
  finite prefix of read outcomes.
-/

namespace Mindwave

/-! ## Bytes and the packet validator -/

/-- A `uint8_t`. -/
abbrev Byte := Fin 256

/-- The synchronisation byte `0xAA`. -/
def syncByte : Byte := 0xAA

/-- `isValidPacket` (main.cpp 24-26):
`data.size() > 2 && data[0] == 0xAA && data[1] == 0xAA`.
Here `operator[]` is made total by a default element; the model
`isValidPacketChecked` below tracks the element reads themselves. -/
def isValidPacket (data : List Byte) : Bool :=
  decide (data.length > 2) && (data.getD 0 0 == syncByte) && (data.getD 1 0 == syncByte)

/-- Result of evaluating a boolean expression over a vector while recording
every index handed to `operator[]`; `value = none` stands for a read outside
`[0, size)`, which C++ leaves undefined. -/
structure Checked where
  reads : List Nat
  value : Option Bool
deriving DecidableEq, Repr

/-- A subexpression that reads no element. -/
def Checked.pure (b : Bool) : Checked := ⟨[], some b⟩

/-- The subexpression `data[i] == b`: one element read, undefined out of range. -/
def Checked.indexEq (data : List Byte) (i : Nat) (b : Byte) : Checked :=
  ⟨[i], (data[i]?).map (fun x => x == b)⟩

/-- C++ `lhs && rhs`: the right operand is evaluated only when the left one
yields `true`. -/
def Checked.and (lhs rhs : Checked) : Checked :=
  match lhs.value with
  | some true => ⟨lhs.reads ++ rhs.reads, rhs.value⟩
  | _ => lhs

/-- `isValidPacket` with the element reads made explicit:
`(data.size() > 2 && data[0] == 0xAA) && data[1] == 0xAA`. -/
def isValidPacketChecked (data : List Byte) : Checked :=
  Checked.and
    (Checked.and (Checked.pure (decide (data.length > 2))) (Checked.indexEq data 0 syncByte))
    (Checked.indexEq data 1 syncByte)

/-! ## The frame reader -/

/-- `sizeof(buffer)` for `uint8_t buffer[256]` (main.cpp 14). -/
def bufferSize : Nat := 256

/-- What one `ReadFile(hSerial, buffer, sizeof(buffer), &bytesRead, NULL)` call
leaves behind: its boolean result, the value of `bytesRead`, and the contents
of the 256-byte `buffer`. -/
structure ReadOutcome where
  ok : Bool
  bytesRead : Nat
  buffer : List Byte
deriving DecidableEq, Repr

/-- `readData` (main.cpp 13-22): `data` starts empty; when the call succeeded
and `bytesRead > 0`, the range `[buffer, buffer + bytesRead)` is inserted at
its end. -/
def readData (r : ReadOutcome) : List Byte :=
  let data : List Byte := []
  if r.ok && decide (r.bytesRead > 0) then
    data ++ r.buffer.take r.bytesRead
  else
    data

/-! ## The serial parameter block -/

/-- Modelled from the spec: the parameter block type `DCB` comes from
`windows.h`, which is not among the sources. The spec names its baud rate,
byte size, stop bits, parity and RTS flow-control fields; the remaining fields
follow the Win32 declaration of `DCB`. Every field is kept as a number. -/
structure DCB where
  DCBlength : Nat
  BaudRate : Nat
  fBinary : Nat
  fParity : Nat
  fOutxCtsFlow : Nat
  fOutxDsrFlow : Nat
  fDtrControl : Nat
  fDsrSensitivity : Nat
  fTXContinueOnXoff : Nat
  fOutX : Nat
  fInX : Nat
  fErrorChar : Nat
  fNull : Nat
  fRtsControl : Nat
  fAbortOnError : Nat
  fDummy2 : Nat
  wReserved : Nat
  XonLim : Nat
  XoffLim : Nat
  ByteSize : Nat
  Parity : Nat
  StopBits : Nat
  XonChar : Nat
  XoffChar : Nat
  ErrorChar : Nat
  EofChar : Nat
  EvtChar : Nat
  wReserved1 : Nat
deriving DecidableEq, Repr

/-- Modelled from the spec: `CBR_9600` of `windows.h`, baud rate 9600. -/
def CBR_9600 : Nat := 9600

/-- Modelled from the spec: `ONESTOPBIT` of `windows.h`, one stop bit. -/
def ONESTOPBIT : Nat := 0

/-- Modelled from the spec: `NOPARITY` of `windows.h`, no parity. -/
def NOPARITY : Nat := 0

/-- Modelled from the spec: `RTS_CONTROL_ENABLE` of `windows.h`, RTS enabled. -/
def RTS_CONTROL_ENABLE : Nat := 1

/-- Modelled from the spec: `CP_UTF8` of `windows.h`. -/
def CP_UTF8 : Nat := 65001

/-- Modelled from the spec: `sizeof(DCB)` under the Win32 layout. -/
def sizeofDCB : Nat := 28

/-- The block after `ZeroMemory(&serialParams, sizeof(serialParams))`. -/
def zeroDCB : DCB :=
  { DCBlength := 0, BaudRate := 0, fBinary := 0, fParity := 0, fOutxCtsFlow := 0,
    fOutxDsrFlow := 0, fDtrControl := 0, fDsrSensitivity := 0, fTXContinueOnXoff := 0,
    fOutX := 0, fInX := 0, fErrorChar := 0, fNull := 0, fRtsControl := 0,
    fAbortOnError := 0, fDummy2 := 0, wReserved := 0, XonLim := 0, XoffLim := 0,
    ByteSize := 0, Parity := 0, StopBits := 0, XonChar := 0, XoffChar := 0,
    ErrorChar := 0, EofChar := 0, EvtChar := 0, wReserved1 := 0 }

/-- The block handed to `GetCommState` (main.cpp 39-41): zero-filled, then
`DCBlength = sizeof(serialParams)`. -/
def initialParams : DCB := { zeroDCB with DCBlength := sizeofDCB }

/-- The five assignments of main.cpp 49-53. -/
def setLineParams (serialParams : DCB) : DCB :=
  { serialParams with
    BaudRate := CBR_9600
    ByteSize := 8
    StopBits := ONESTOPBIT
    Parity := NOPARITY
    fRtsControl := RTS_CONTROL_ENABLE }

/-! ## Device, trace and `main` -/

/-- The observable operations of `main`, in program order. -/
inductive Event where
  | setConsoleOutputCP (codePage : Nat)
  | createFile (portName : String)
  | errOpen
  | getCommState (block : DCB)
  | errGetParams
  | closeHandle
  | setCommState (block : DCB)
  | outConnected
  | readFile (size : Nat)
  | outReceived (count : Nat)
  | sleep (ms : Nat)
deriving DecidableEq, Repr

/-- The answers of the operating system to the calls `main` makes.
`createFile` tells whether `CreateFileA` returned a valid handle;
`getCommState` maps the block passed in to the block written back, `none`
when the call fails; `setCommState` is the result of the apply call;
`readFile k` is the outcome of the `k`-th `ReadFile` call. -/
structure Device where
  createFile : Bool
  getCommState : DCB → Option DCB
  setCommState : DCB → Bool
  readFile : Nat → ReadOutcome

/-- How a loop body hands control back to the enclosing `while`. -/
inductive Flow where
  | next
  | brk
  | ret (code : Nat)
deriving DecidableEq, Repr

/-- Where `main` stands: inside the `while (true)` loop, or returned. -/
inductive Control where
  | polling
  | exited (code : Nat)
deriving DecidableEq, Repr

/-- A control point together with everything done so far. -/
structure Run where
  control : Control
  trace : List Event
deriving DecidableEq, Repr

/-- The condition of the `if` on main.cpp 60. -/
def pollGuard (response : List Byte) : Bool :=
  !response.isEmpty && isValidPacket response

/-- Lines 60-63 of the loop body, for the frame `response` the reader returned. -/
def pollCycle (response : List Byte) : List Event × Flow :=
  let report := if pollGuard response then [Event.outReceived response.length] else []
  (report ++ [Event.sleep 100], Flow.next)

/-- One iteration of the loop body (main.cpp 59-63) on one read outcome. -/
def loopBody (r : ReadOutcome) : List Event × Flow :=
  let response := readData r
  let rest := pollCycle response
  (Event.readFile bufferSize :: rest.1, rest.2)

/-- Lines 29-56 of `main`: everything before the loop. -/
def setup (w : Device) : Run :=
  let t0 := [Event.setConsoleOutputCP CP_UTF8, Event.createFile "COM4"]
  if !w.createFile then
    ⟨Control.exited 1, t0 ++ [Event.errOpen]⟩
  else
    let serialParams := initialParams
    let t1 := t0 ++ [Event.getCommState serialParams]
    match w.getCommState serialParams with
    | none => ⟨Control.exited 1, t1 ++ [Event.errGetParams, Event.closeHandle]⟩
    | some fetched =>
      let serialParams := setLineParams fetched
      let _ := w.setCommState serialParams
      ⟨Control.polling, t1 ++ [Event.setCommState serialParams, Event.outConnected]⟩

/-- One step of `main` after setup. Inside the loop the body runs once on the
read outcome `r`; leaving the loop would run lines 66-67 (`CloseHandle`,
`return 0`). A returned program stays returned and does nothing. -/
def step (c : Control) (r : ReadOutcome) : Control × List Event :=
  match c with
  | Control.polling =>
    match loopBody r with
    | (ev, Flow.next) => (Control.polling, ev)
    | (ev, Flow.brk) => (Control.exited 0, ev ++ [Event.closeHandle])
    | (ev, Flow.ret code) => (Control.exited code, ev)
  | Control.exited code => (Control.exited code, [])

/-- The program `main` observed after `n` steps following setup. -/
def mainRun (w : Device) : Nat → Run
  | 0 => setup w
  | n + 1 =>
    let run := mainRun w n
    let next := step run.control (w.readFile n)
    ⟨next.1, run.trace ++ next.2⟩

/-- Trace classifiers. -/
def Event.isFetch : Event → Bool
  | Event.getCommState _ => true
  | _ => false

def Event.isApply : Event → Bool
  | Event.setCommState _ => true
  | _ => false

def Event.isRead : Event → Bool
  | Event.readFile _ => true
  | _ => false

def Event.isClose : Event → Bool
  | Event.closeHandle => true
  | _ => false

def Event.isConnectedNotice : Event → Bool
  | Event.outConnected => true
  | _ => false

def Event.isReport : Event → Bool
  | Event.outReceived _ => true
  | _ => false

def Event.isSleep : Event → Bool
  | Event.sleep _ => true
  | _ => false

/-! ## Concrete inputs -/

/-- A read that delivered three bytes into the 256-byte buffer. -/
def sampleRead : ReadOutcome :=
  ⟨true, 3, [0xAA, 0xAA, 0x01] ++ List.replicate 253 0⟩

/-- A successful read with no data available. -/
def quietRead : ReadOutcome :=
  ⟨true, 0, List.replicate 256 0⟩

/-- A parameter block as a port might report it before configuration. -/
def currentParams : DCB :=
  { zeroDCB with
    DCBlength := 28, BaudRate := 57600, fBinary := 1, fDtrControl := 1, fRtsControl := 2,
    XonLim := 2048, XoffLim := 512, ByteSize := 7, Parity := 2, StopBits := 2,
    XonChar := 17, XoffChar := 19 }

/-- A machine on which the port cannot be opened. -/
def noPortDevice : Device :=
  ⟨false, fun _ => none, fun _ => false, fun _ => quietRead⟩

/-- A port that opens but refuses to report its parameters. -/
def noFetchDevice : Device :=
  ⟨true, fun _ => none, fun _ => false, fun _ => quietRead⟩

/-- A port that opens and reports its parameters but rejects every apply call. -/
def rejectingDevice : Device :=
  ⟨true, fun _ => some currentParams, fun _ => false, fun _ => sampleRead⟩

/-- A port on which every call succeeds; every other read carries a packet. -/
def workingDevice : Device :=
  ⟨true, fun _ => some currentParams, fun _ => true,
    fun k => if k % 2 = 0 then sampleRead else quietRead⟩

/-! ## Shared lemmas on the validator -/

theorem isValidPacket_eq_true_iff (s : List Byte) :
    isValidPacket s = true ↔ 2 < s.length ∧ s[0]? = some syncByte ∧ s[1]? = some syncByte := by
  match s with
  | [] => simp [isValidPacket]
  | [a] => simp [isValidPacket]
  | [a, b] => simp [isValidPacket]
  | a :: b :: c :: t => simp [isValidPacket, and_assoc]

theorem isValidPacket_of_length_le (s : List Byte) (h : s.length ≤ 2) :
    isValidPacket s = false := by
  have h2 : ¬ (2 < s.length) := by omega
  simp [isValidPacket, h2]

theorem isValidPacketChecked_value (s : List Byte) :
    (isValidPacketChecked s).value = some (isValidPacket s) := by
  match s with
  | [] => simp [isValidPacketChecked, isValidPacket, Checked.and, Checked.pure]
  | [a] => simp [isValidPacketChecked, isValidPacket, Checked.and, Checked.pure]
  | [a, b] => simp [isValidPacketChecked, isValidPacket, Checked.and, Checked.pure]
  | a :: b :: c :: t =>
    by_cases ha : a = syncByte <;>
      simp [isValidPacketChecked, isValidPacket, Checked.and, Checked.pure, Checked.indexEq, ha]

theorem isValidPacketChecked_reads_lt (s : List Byte) :
    ∀ i ∈ (isValidPacketChecked s).reads, i < s.length := by
  match s with
  | [] => simp [isValidPacketChecked, Checked.and, Checked.pure]
  | [a] => simp [isValidPacketChecked, Checked.and, Checked.pure]
  | [a, b] => simp [isValidPacketChecked, Checked.and, Checked.pure]
  | a :: b :: c :: t =>
    by_cases ha : a = syncByte <;>
      simp [isValidPacketChecked, Checked.and, Checked.pure, Checked.indexEq, ha]

theorem pollGuard_eq_isValidPacket (f : List Byte) : pollGuard f = isValidPacket f := by
  cases f <;> simp [pollGuard, isValidPacket]

/-! ## Shared lemmas on the reader and the loop -/

theorem readData_of_data (r : ReadOutcome) (hok : r.ok = true) (hpos : 0 < r.bytesRead) :
    readData r = r.buffer.take r.bytesRead := by
  simp [readData, hok, hpos]

theorem readData_of_fail (r : ReadOutcome) (hok : r.ok = false) : readData r = [] := by
  simp [readData, hok]

theorem readData_of_zero (r : ReadOutcome) (hz : r.bytesRead = 0) : readData r = [] := by
  simp [readData, hz]

theorem readData_length_le (r : ReadOutcome) : (readData r).length ≤ r.bytesRead := by
  unfold readData
  split
  · simp [List.length_take]
  · simp

theorem loopBody_fst (r : ReadOutcome) :
    (loopBody r).1 = Event.readFile bufferSize ::
      ((if pollGuard (readData r) then [Event.outReceived (readData r).length] else []) ++
        [Event.sleep 100]) := rfl

theorem step_polling (r : ReadOutcome) :
    step Control.polling r = (Control.polling, (loopBody r).1) := rfl

theorem loopBody_filter_isApply (r : ReadOutcome) :
    (loopBody r).1.filter Event.isApply = [] := by
  rw [loopBody_fst]
  split <;> simp [Event.isApply]

theorem loopBody_countP_isClose (r : ReadOutcome) :
    (loopBody r).1.countP Event.isClose = 0 := by
  rw [loopBody_fst]
  split <;> simp [Event.isClose]

theorem loopBody_countP_isRead (r : ReadOutcome) :
    (loopBody r).1.countP Event.isRead = 1 := by
  rw [loopBody_fst]
  split <;> simp [Event.isRead]

theorem loopBody_countP_isSleep (r : ReadOutcome) :
    (loopBody r).1.countP Event.isSleep = 1 := by
  rw [loopBody_fst]
  split <;> simp [Event.isSleep]

theorem loopBody_countP_isConnectedNotice (r : ReadOutcome) :
    (loopBody r).1.countP Event.isConnectedNotice = 0 := by
  rw [loopBody_fst]
  split <;> simp [Event.isConnectedNotice]

theorem setup_of_open_fail (w : Device) (hopen : w.createFile = false) :
    setup w = ⟨Control.exited 1,
      [Event.setConsoleOutputCP CP_UTF8, Event.createFile "COM4", Event.errOpen]⟩ := by
  simp [setup, hopen]

theorem setup_of_fetch_fail (w : Device) (hopen : w.createFile = true)
    (hfetch : w.getCommState initialParams = none) :
    setup w = ⟨Control.exited 1,
      [Event.setConsoleOutputCP CP_UTF8, Event.createFile "COM4",
        Event.getCommState initialParams, Event.errGetParams, Event.closeHandle]⟩ := by
  simp [setup, hopen, hfetch]

theorem setup_of_fetch_ok (w : Device) (d : DCB) (hopen : w.createFile = true)
    (hfetch : w.getCommState initialParams = some d) :
    setup w = ⟨Control.polling,
      [Event.setConsoleOutputCP CP_UTF8, Event.createFile "COM4",
        Event.getCommState initialParams, Event.setCommState (setLineParams d),
        Event.outConnected]⟩ := by
  simp [setup, hopen, hfetch]

theorem mainRun_of_exited (w : Device) (code : Nat)
    (h : (setup w).control = Control.exited code) (n : Nat) : mainRun w n = setup w := by
  induction n with
  | zero => rfl
  | succ k ih =>
    cases hs : setup w with
    | mk c t =>
      rw [hs] at h ih
      simp only at h
      simp [mainRun, ih, h, step]

theorem mainRun_control_polling (w : Device) (h : (setup w).control = Control.polling)
    (n : Nat) : (mainRun w n).control = Control.polling := by
  induction n with
  | zero => exact h
  | succ k ih => simp [mainRun, ih, step_polling]

theorem mainRun_trace_succ (w : Device) (h : (setup w).control = Control.polling)
    (n : Nat) :
    (mainRun w (n + 1)).trace = (mainRun w n).trace ++ (loopBody (w.readFile n)).1 := by
  simp [mainRun, mainRun_control_polling w h n, step_polling]

theorem mainRun_countP (w : Device) (h : (setup w).control = Control.polling)
    (p : Event → Bool) (c : Nat) (hp : ∀ r, (loopBody r).1.countP p = c) (n : Nat) :
    (mainRun w n).trace.countP p = (setup w).trace.countP p + n * c := by
  induction n with
  | zero => simp [mainRun]
  | succ k ih =>
    rw [mainRun_trace_succ w h k, List.countP_append, ih, hp]
    ring

theorem mainRun_filter (w : Device) (h : (setup w).control = Control.polling)
    (p : Event → Bool) (hp : ∀ r, (loopBody r).1.filter p = []) (n : Nat) :
    (mainRun w n).trace.filter p = (setup w).trace.filter p := by
  induction n with
  | zero => simp [mainRun]
  | succ k ih => rw [mainRun_trace_succ w h k, List.filter_append, ih, hp, List.append_nil]

/-! ## Claims on the validator -/

/-- C1: `isValidPacket s` is true exactly when `s` has more than two bytes and
its first two bytes are both `0xAA`; two sequences longer than two bytes that
agree on their first two bytes get the same verdict, whatever follows. -/
theorem isValidPacket_iff_marker (s t : List Byte) :
    (isValidPacket s = true ↔
      2 < s.length ∧ s[0]? = some (0xAA : Byte) ∧ s[1]? = some (0xAA : Byte)) ∧
    (2 < s.length → 2 < t.length → s[0]? = t[0]? → s[1]? = t[1]? →
      isValidPacket s = isValidPacket t) := by
  refine ⟨isValidPacket_eq_true_iff s, ?_⟩
  intro hs ht h0 h1
  rw [Bool.eq_iff_iff, isValidPacket_eq_true_iff, isValidPacket_eq_true_iff, h0, h1]
  simp [hs, ht]

theorem isValidPacket_iff_marker_witness :
    isValidPacket [0xAA, 0xAA, 0x01] = true ∧
    isValidPacket [0xAA, 0xAA, 0x01] = isValidPacket [0xAA, 0xAA, 0xFF, 0x07] :=
  ⟨((isValidPacket_iff_marker [0xAA, 0xAA, 0x01] [0xAA, 0xAA, 0xFF, 0x07]).1).2
      ⟨by decide, by decide, by decide⟩,
   (isValidPacket_iff_marker [0xAA, 0xAA, 0x01] [0xAA, 0xAA, 0xFF, 0x07]).2
      (by decide) (by decide) (by decide) (by decide)⟩

/-- C2: on a sequence of at most two bytes `isValidPacket` answers false, and
the evaluation reads no element at all (the length test short-circuits); on
every sequence each element read is in range and the evaluation is defined. -/
theorem isValidPacket_short_safe (s : List Byte) :
    (s.length ≤ 2 →
      isValidPacket s = false ∧ isValidPacketChecked s = ⟨[], some false⟩) ∧
    (∀ i ∈ (isValidPacketChecked s).reads, i < s.length) ∧
    (isValidPacketChecked s).value = some (isValidPacket s) := by
  refine ⟨?_, isValidPacketChecked_reads_lt s, isValidPacketChecked_value s⟩
  intro h
  refine ⟨isValidPacket_of_length_le s h, ?_⟩
  have h2 : ¬ (2 < s.length) := by omega
  simp [isValidPacketChecked, Checked.and, Checked.pure, h2]

theorem isValidPacket_short_safe_witness :
    isValidPacket [0xAA, 0xAA] = false ∧
    isValidPacketChecked [0xAA, 0xAA] = ⟨[], some false⟩ :=
  (isValidPacket_short_safe [0xAA, 0xAA]).1 (by decide)

/-! ## Claims on the frame reader -/

theorem sampleRead_buffer_length : sampleRead.buffer.length = 256 := by
  simp only [sampleRead, List.length_append, List.length_replicate, List.length_cons,
    List.length_nil]

theorem readData_sampleRead : readData sampleRead = [0xAA, 0xAA, 0x01] := rfl

/-- C3: for a read outcome with a 256-byte buffer and `n ≤ 256` bytes read,
`readData` returns the first `n` bytes of the buffer in order when the call
succeeded and `n > 0`, and the empty sequence when it succeeded with `n = 0`
or failed; the result never has more than 256 bytes. -/
theorem readData_spec (r : ReadOutcome) (hbuf : r.buffer.length = 256)
    (hn : r.bytesRead ≤ 256) :
    (r.ok = true → 0 < r.bytesRead →
      readData r = r.buffer.take r.bytesRead ∧
      (readData r).length = r.bytesRead ∧
      ∀ i, i < r.bytesRead → (readData r)[i]? = r.buffer[i]?) ∧
    (r.ok = true → r.bytesRead = 0 → readData r = []) ∧
    (r.ok = false → readData r = []) ∧
    (readData r).length ≤ 256 := by
  refine ⟨?_, fun _ hz => readData_of_zero r hz, readData_of_fail r, ?_⟩
  · intro hok hpos
    rw [readData_of_data r hok hpos]
    refine ⟨rfl, ?_, ?_⟩
    · rw [List.length_take, hbuf]
      omega
    · intro i hi
      rw [List.getElem?_take_of_lt hi]
  · exact Nat.le_trans (readData_length_le r) hn

theorem readData_spec_witness :
    readData sampleRead = sampleRead.buffer.take 3 ∧
    (readData sampleRead).length = 3 ∧
    (∀ i, i < 3 → (readData sampleRead)[i]? = sampleRead.buffer[i]?) :=
  (readData_spec sampleRead sampleRead_buffer_length (by decide)).1 rfl (by decide)

/-- C4 fails on the code: a failed read and a successful read of zero bytes
give the same result, the empty sequence. -/
theorem readData_failure_not_distinct :
    ¬ (readData ⟨false, 0, List.replicate 256 0⟩ ≠ readData ⟨true, 0, List.replicate 256 0⟩) := by
  simp [readData]

/-- C4 as amended: when the read call reports failure, `readData` returns the
empty sequence, the very result it gives for a successful read of zero bytes. -/
theorem readData_failure_as_empty (r z : ReadOutcome) (hfail : r.ok = false)
    (_hok : z.ok = true) (hzero : z.bytesRead = 0) :
    readData r = [] ∧ readData r = readData z := by
  rw [readData_of_fail r hfail, readData_of_zero z hzero]
  exact ⟨rfl, rfl⟩

theorem readData_failure_as_empty_witness :
    readData ⟨false, 7, List.replicate 256 0xAA⟩ = [] ∧
    readData ⟨false, 7, List.replicate 256 0xAA⟩ = readData ⟨true, 0, List.replicate 256 0⟩ :=
  readData_failure_as_empty ⟨false, 7, List.replicate 256 0xAA⟩
    ⟨true, 0, List.replicate 256 0⟩ rfl rfl rfl

/-! ## Claims on the poll loop -/

/-- C5: in one poll cycle on the frame `f` a report is emitted exactly when `f`
is non-empty and `isValidPacket f` holds; a report carries `f.length`; there is
at most one report; the cycle ends with one sleep of 100 ms either way and
stays in the loop; on the empty frame the cycle only sleeps. -/
theorem pollCycle_spec (f : List Byte) :
    ((∃ k, Event.outReceived k ∈ (pollCycle f).1) ↔ (f ≠ [] ∧ isValidPacket f = true)) ∧
    (∀ k, Event.outReceived k ∈ (pollCycle f).1 → k = f.length) ∧
    (pollCycle f).1.countP Event.isReport ≤ 1 ∧
    (pollCycle f).1.filter Event.isSleep = [Event.sleep 100] ∧
    (pollCycle f).1.getLast? = some (Event.sleep 100) ∧
    (pollCycle f).2 = Flow.next ∧
    pollCycle [] = ([Event.sleep 100], Flow.next) := by
  have hg : pollGuard f = true ↔ (f ≠ [] ∧ isValidPacket f = true) := by
    cases f <;> simp [pollGuard]
  refine ⟨?_, ?_, ?_, ?_, ?_, rfl, by decide⟩
  · rw [← hg]
    by_cases h : pollGuard f = true <;> simp [pollCycle, h]
  · intro k
    by_cases h : pollGuard f = true <;> simp [pollCycle, h]
  · by_cases h : pollGuard f = true <;> simp [pollCycle, h, Event.isReport]
  · by_cases h : pollGuard f = true <;> simp [pollCycle, h, Event.isSleep]
  · by_cases h : pollGuard f = true <;> simp [pollCycle, h]

/-- C10: whenever the loop body reports a byte count `N` for a read of at most
256 bytes, `3 ≤ N ≤ 256`, `N` is the length of the frame read and the frame
starts with `0xAA 0xAA`; and the loop guard equals `isValidPacket` alone on
every frame. -/
theorem report_bounds (r : ReadOutcome) (f : List Byte) :
    (r.bytesRead ≤ 256 → ∀ N, Event.outReceived N ∈ (loopBody r).1 →
      3 ≤ N ∧ N ≤ 256 ∧ N = (readData r).length ∧
      (readData r)[0]? = some (0xAA : Byte) ∧ (readData r)[1]? = some (0xAA : Byte)) ∧
    pollGuard f = isValidPacket f ∧
    (!f.isEmpty && isValidPacket f) = isValidPacket f := by
  refine ⟨?_, pollGuard_eq_isValidPacket f, pollGuard_eq_isValidPacket f⟩
  intro hn N hmem
  rw [loopBody_fst] at hmem
  by_cases hg : pollGuard (readData r) = true
  · simp [hg] at hmem
    rw [pollGuard_eq_isValidPacket, isValidPacket_eq_true_iff] at hg
    have hle := readData_length_le r
    subst hmem
    exact ⟨hg.1, by omega, rfl, hg.2.1, hg.2.2⟩
  · simp [hg] at hmem

theorem report_bounds_witness :
    3 ≤ 3 ∧ 3 ≤ 256 ∧ 3 = (readData sampleRead).length ∧
    (readData sampleRead)[0]? = some (0xAA : Byte) ∧
    (readData sampleRead)[1]? = some (0xAA : Byte) :=
  (report_bounds sampleRead []).1 (by decide) 3
    (by rw [loopBody_fst, readData_sampleRead]; decide)

/-! ## Claims on `main` -/

/-- C6: when opening the port fails, `main` returns 1 after the open attempt and
the error line only: no parameter fetch, no apply, no read, no close. When the
open succeeds and the parameter fetch fails, `main` returns 1 after closing the
handle exactly once, as its last action, with no apply and no read. Neither
path prints the connection notice. -/
theorem main_setup_failures (w : Device) (n : Nat) :
    (w.createFile = false →
      mainRun w n = ⟨Control.exited 1,
        [Event.setConsoleOutputCP CP_UTF8, Event.createFile "COM4", Event.errOpen]⟩ ∧
      (mainRun w n).trace.countP Event.isFetch = 0 ∧
      (mainRun w n).trace.countP Event.isApply = 0 ∧
      (mainRun w n).trace.countP Event.isRead = 0 ∧
      (mainRun w n).trace.countP Event.isClose = 0 ∧
      (mainRun w n).trace.countP Event.isConnectedNotice = 0) ∧
    (w.createFile = true → w.getCommState initialParams = none →
      mainRun w n = ⟨Control.exited 1,
        [Event.setConsoleOutputCP CP_UTF8, Event.createFile "COM4",
          Event.getCommState initialParams, Event.errGetParams, Event.closeHandle]⟩ ∧
      (mainRun w n).trace.countP Event.isClose = 1 ∧
      (mainRun w n).trace.getLast? = some Event.closeHandle ∧
      (mainRun w n).trace.countP Event.isApply = 0 ∧
      (mainRun w n).trace.countP Event.isRead = 0 ∧
      (mainRun w n).trace.countP Event.isConnectedNotice = 0) := by
  constructor
  · intro hopen
    have hs := setup_of_open_fail w hopen
    have hrun : mainRun w n = setup w := mainRun_of_exited w 1 (by rw [hs]) n
    rw [hrun, hs]
    exact ⟨rfl, rfl, rfl, rfl, rfl, rfl⟩
  · intro hopen hfetch
    have hs := setup_of_fetch_fail w hopen hfetch
    have hrun : mainRun w n = setup w := mainRun_of_exited w 1 (by rw [hs]) n
    rw [hrun, hs]
    exact ⟨rfl, rfl, rfl, rfl, rfl, rfl⟩

theorem main_setup_failures_witness :
    (mainRun noPortDevice 4).control = Control.exited 1 ∧
    (mainRun noPortDevice 4).trace.countP Event.isClose = 0 ∧
    (mainRun noFetchDevice 4).control = Control.exited 1 ∧
    (mainRun noFetchDevice 4).trace.countP Event.isClose = 1 :=
  have h1 := (main_setup_failures noPortDevice 4).1 rfl
  have h2 := (main_setup_failures noFetchDevice 4).2 rfl rfl
  ⟨by rw [h1.1], h1.2.2.2.2.1, by rw [h2.1], h2.2.1⟩

/-- C7 evaluated on a port that rejects the apply call: `main` prints the
connection notice all the same, never closes the handle, never returns, and
goes on reading. -/
theorem main_ignores_apply_failure (n : Nat) :
    rejectingDevice.createFile = true ∧
    rejectingDevice.getCommState initialParams = some currentParams ∧
    rejectingDevice.setCommState (setLineParams currentParams) = false ∧
    (mainRun rejectingDevice n).control = Control.polling ∧
    (mainRun rejectingDevice n).trace.countP Event.isConnectedNotice = 1 ∧
    (mainRun rejectingDevice n).trace.countP Event.isClose = 0 ∧
    (mainRun rejectingDevice n).trace.countP Event.isRead = n := by
  have hs := setup_of_fetch_ok rejectingDevice currentParams rfl rfl
  have hp : (setup rejectingDevice).control = Control.polling := by rw [hs]
  refine ⟨rfl, rfl, rfl, mainRun_control_polling _ hp n, ?_, ?_, ?_⟩
  · rw [mainRun_countP _ hp _ 0 loopBody_countP_isConnectedNotice, hs]
    rfl
  · rw [mainRun_countP _ hp _ 0 loopBody_countP_isClose, hs]
    rfl
  · rw [mainRun_countP _ hp _ 1 loopBody_countP_isRead, hs]
    simp [Event.isRead]

/-- C8: after a successful fetch returning the block `d`, setup performs fetch
and then apply, the block applied is `d` with baud rate 9600, byte size 8, one
stop bit, no parity and RTS control enabled, every other field is as in `d`,
and no other apply call is ever made. -/
theorem applied_block_spec (w : Device) (d : DCB) (n : Nat) (hopen : w.createFile = true)
    (hfetch : w.getCommState initialParams = some d) :
    (setup w).trace =
      [Event.setConsoleOutputCP CP_UTF8, Event.createFile "COM4",
        Event.getCommState initialParams, Event.setCommState (setLineParams d),
        Event.outConnected] ∧
    (mainRun w n).trace.filter Event.isApply = [Event.setCommState (setLineParams d)] ∧
    (setLineParams d).BaudRate = 9600 ∧
    (setLineParams d).ByteSize = 8 ∧
    (setLineParams d).StopBits = ONESTOPBIT ∧
    (setLineParams d).Parity = NOPARITY ∧
    (setLineParams d).fRtsControl = RTS_CONTROL_ENABLE ∧
    (setLineParams d).DCBlength = d.DCBlength ∧
    (setLineParams d).fBinary = d.fBinary ∧
    (setLineParams d).fParity = d.fParity ∧
    (setLineParams d).fOutxCtsFlow = d.fOutxCtsFlow ∧
    (setLineParams d).fOutxDsrFlow = d.fOutxDsrFlow ∧
    (setLineParams d).fDtrControl = d.fDtrControl ∧
    (setLineParams d).fDsrSensitivity = d.fDsrSensitivity ∧
    (setLineParams d).fTXContinueOnXoff = d.fTXContinueOnXoff ∧
    (setLineParams d).fOutX = d.fOutX ∧
    (setLineParams d).fInX = d.fInX ∧
    (setLineParams d).fErrorChar = d.fErrorChar ∧
    (setLineParams d).fNull = d.fNull ∧
    (setLineParams d).fAbortOnError = d.fAbortOnError ∧
    (setLineParams d).fDummy2 = d.fDummy2 ∧
    (setLineParams d).wReserved = d.wReserved ∧
    (setLineParams d).XonLim = d.XonLim ∧
    (setLineParams d).XoffLim = d.XoffLim ∧
    (setLineParams d).XonChar = d.XonChar ∧
    (setLineParams d).XoffChar = d.XoffChar ∧
    (setLineParams d).ErrorChar = d.ErrorChar ∧
    (setLineParams d).EofChar = d.EofChar ∧
    (setLineParams d).EvtChar = d.EvtChar ∧
    (setLineParams d).wReserved1 = d.wReserved1 := by
  have hs := setup_of_fetch_ok w d hopen hfetch
  have hp : (setup w).control = Control.polling := by rw [hs]
  refine ⟨by rw [hs], ?_, rfl, rfl, rfl, rfl, rfl, rfl, rfl, rfl, rfl, rfl, rfl, rfl, rfl,
    rfl, rfl, rfl, rfl, rfl, rfl, rfl, rfl, rfl, rfl, rfl, rfl, rfl, rfl, rfl⟩
  rw [mainRun_filter w hp _ loopBody_filter_isApply n, hs]
  rfl

theorem applied_block_spec_witness :
    (mainRun workingDevice 3).trace.filter Event.isApply =
      [Event.setCommState (setLineParams currentParams)] ∧
    (setLineParams currentParams).BaudRate = 9600 ∧
    (setLineParams currentParams).DCBlength = 28 ∧
    (setLineParams currentParams).XonLim = 2048 :=
  have h := applied_block_spec workingDevice currentParams 3 rfl rfl
  ⟨h.2.1, h.2.2.1, h.2.2.2.2.2.2.2.1, rfl⟩

/-- C9: once open and fetch have succeeded `main` is in the state `polling`;
every step from `polling` leads to `polling` whatever the read outcome; so
after any number of steps the program has not returned (in particular not
with code 0), has never closed the handle, and has made one read per step. -/
theorem polling_never_terminates (w : Device) (d : DCB) (n : Nat)
    (hopen : w.createFile = true) (hfetch : w.getCommState initialParams = some d) :
    (setup w).control = Control.polling ∧
    (∀ r, (step Control.polling r).1 = Control.polling) ∧
    (mainRun w n).control = Control.polling ∧
    (∀ code, (mainRun w n).control ≠ Control.exited code) ∧
    (mainRun w n).trace.countP Event.isClose = 0 ∧
    (mainRun w n).trace.countP Event.isRead = n ∧
    (mainRun w n).trace.countP Event.isSleep = n := by
  have hs := setup_of_fetch_ok w d hopen hfetch
  have hp : (setup w).control = Control.polling := by rw [hs]
  have hc := mainRun_control_polling w hp n
  refine ⟨hp, fun r => by rw [step_polling], hc, ?_, ?_, ?_, ?_⟩
  · intro code h
    rw [hc] at h
    exact Control.noConfusion h
  · rw [mainRun_countP w hp _ 0 loopBody_countP_isClose, hs]
    rfl
  · rw [mainRun_countP w hp _ 1 loopBody_countP_isRead, hs]
    simp [Event.isRead]
  · rw [mainRun_countP w hp _ 1 loopBody_countP_isSleep, hs]
    simp [Event.isSleep]

theorem polling_never_terminates_witness :
    (mainRun workingDevice 5).control = Control.polling ∧
    (mainRun workingDevice 5).trace.countP Event.isClose = 0 ∧
    (mainRun workingDevice 5).trace.countP Event.isRead = 5 :=
  have h := polling_never_terminates workingDevice currentParams 5 rfl rfl
  ⟨h.2.2.1, h.2.2.2.2.1, h.2.2.2.2.2.1⟩

end Mindwave
